import Mathlib

/-!
Verification of the HaH-Opt optimization core (src/model.py, src/main.py,
src/config.py, src/utils.py) against its natural-language specification.

The model built by build_and_solve_model (src/model.py) is a mixed-integer
quadratically constrained program.  We embed it shallowly: a Params record
holds the parameter set (config.py), a Sol record holds one real-valued
assignment to every decision variable created by the builder, and Feasible
lists, one field per addConstr/addConstrs/addQConstr/addGenConstrPow call and
one per variable bound, exactly the constraints of the assembled program.
-/

namespace HaH

/-- gurobipy quicksum of a real expression over a Python list of indices. -/
def lsum (l : List ℕ) (f : ℕ → ℝ) : ℝ := (l.map f).sum

/-- Python dict.get(key, 0): lookup in an association list, defaulting to 0
for absent keys (config.demand.get((s, i, t), 0), model.py line 37). -/
def dget (d : List ((ℕ × ℕ × ℕ) × ℝ)) (k : ℕ × ℕ × ℕ) : ℝ :=
  (List.lookup k d).getD 0

/-- The parameter set of config.py consumed by build_and_solve_model.
T of config.py is list(range(horizon)); demand is the sparse demand table. -/
structure Params where
  P : List ℕ
  E : List ℕ
  H : List ℕ
  S : List ℕ
  J : List ℕ
  num_J : ℕ
  horizon : ℕ
  B : ℝ
  c_Hosp : ℝ
  c_N : ℝ
  c_V : ℝ
  c_D : ℝ
  c_P : ℕ → ℝ
  L_hosp : ℕ → ℝ
  L_home : ℕ → ℝ
  demand : List ((ℕ × ℕ × ℕ) × ℝ)
  bigM : ℝ
  gamma : ℝ
  beta : ℝ

/-- The planning days: T = list(range(PLANNING_HORIZON_DAYS)) in config.py. -/
def Params.T (pp : Params) : List ℕ := List.range pp.horizon

/-- One assignment to every decision variable created in model.py lines
13-18, 26, 59, 64 and 78: x (select), y (inventory), z (deliver),
p (procure), a (served), n_jt (delivery count), num_vehicles, avg_dist,
sqrt_n and vrp_jt (routing cost). -/
structure Sol where
  x : ℕ → ℝ
  y : ℕ → ℕ → ℕ → ℝ
  z : ℕ → ℕ → ℕ → ℕ → ℝ
  p : ℕ → ℕ → ℕ → ℝ
  a : ℕ → ℕ → ℕ → ℝ
  n_jt : ℕ → ℕ → ℝ
  num_vehicles : ℕ → ℕ → ℝ
  avg_dist : ℕ → ℕ → ℝ
  sqrt_n : ℕ → ℕ → ℝ
  vrp_jt : ℕ → ℕ → ℝ

/-- model.py line 67: the total one-way distance
quicksum(a[i, j, t] * distance_matrix[j, num_J + i] for i in E). -/
def total_one_way_distance (pp : Params) (dist : ℕ → ℕ → ℝ)
    (a : ℕ → ℕ → ℕ → ℝ) (j t : ℕ) : ℝ :=
  lsum pp.E (fun i => a i j t * dist j (pp.num_J + i))

/-- Feasibility for the program assembled by build_and_solve_model:
one field per constraint added in model.py lines 35-83 plus the variable
bounds declared at creation (binary/integer vtypes and lb=0 defaults). -/
structure Feasible (pp : Params) (dist : ℕ → ℕ → ℝ) (sol : Sol) : Prop where
  x_binary : ∀ i ∈ pp.P, sol.x i = 0 ∨ sol.x i = 1
  y_nonneg : ∀ s ∈ pp.S, ∀ j ∈ pp.J, ∀ t < pp.horizon, 0 ≤ sol.y s j t
  z_nonneg : ∀ s ∈ pp.S, ∀ i ∈ pp.E, ∀ j ∈ pp.J, ∀ t < pp.horizon,
    0 ≤ sol.z s i j t
  p_nonneg : ∀ s ∈ pp.S, ∀ j ∈ pp.J, ∀ t < pp.horizon, 0 ≤ sol.p s j t
  a_binary : ∀ i ∈ pp.E, ∀ j ∈ pp.J, ∀ t < pp.horizon,
    sol.a i j t = 0 ∨ sol.a i j t = 1
  n_nonneg : ∀ j ∈ pp.J, ∀ t < pp.horizon, 0 ≤ sol.n_jt j t
  ineligibility : ∀ i ∈ pp.H, sol.x i = 0
  bed_capacity : lsum pp.P (fun i => 1 - sol.x i) ≤ pp.B
  demand_fulfillment : ∀ s ∈ pp.S, ∀ i ∈ pp.E, ∀ t < pp.horizon,
    lsum pp.J (fun j => sol.z s i j t) = dget pp.demand (s, i, t) * sol.x i
  inventory_day0 : ∀ s ∈ pp.S, ∀ j ∈ pp.J,
    0 + sol.p s j 0 - lsum pp.E (fun i => sol.z s i j 0) = sol.y s j 0
  inventory_balance : ∀ s ∈ pp.S, ∀ j ∈ pp.J, ∀ t, t + 1 < pp.horizon →
    sol.y s j t + sol.p s j (t + 1) - lsum pp.E (fun i => sol.z s i j (t + 1))
      = sol.y s j (t + 1)
  link_z_a : ∀ i ∈ pp.E, ∀ j ∈ pp.J, ∀ t < pp.horizon,
    lsum pp.S (fun s => sol.z s i j t) ≤ pp.bigM * sol.a i j t
  count_deliveries : ∀ j ∈ pp.J, ∀ t < pp.horizon,
    sol.n_jt j t = lsum pp.E (fun i => sol.a i j t)
  num_vehicles_int : ∀ j ∈ pp.J, ∀ t < pp.horizon,
    ∃ k : ℕ, sol.num_vehicles j t = k
  calc_vehicles : ∀ j ∈ pp.J, ∀ t < pp.horizon,
    sol.num_vehicles j t * pp.gamma ≥ sol.n_jt j t
  avg_dist_nonneg : ∀ j ∈ pp.J, ∀ t < pp.horizon, 0 ≤ sol.avg_dist j t
  avg_dist_calc : ∀ j ∈ pp.J, ∀ t < pp.horizon,
    sol.avg_dist j t * sol.n_jt j t = total_one_way_distance pp dist sol.a j t
  sqrt_n_nonneg : ∀ j ∈ pp.J, ∀ t < pp.horizon, 0 ≤ sol.sqrt_n j t
  pow_sqrt_n : ∀ j ∈ pp.J, ∀ t < pp.horizon,
    sol.sqrt_n j t = Real.sqrt (sol.n_jt j t)
  vrp_nonneg : ∀ j ∈ pp.J, ∀ t < pp.horizon, 0 ≤ sol.vrp_jt j t
  vrp_cost_def : ∀ j ∈ pp.J, ∀ t < pp.horizon,
    sol.vrp_jt j t
      = sol.num_vehicles j t * 2 * sol.avg_dist j t + pp.beta * sol.sqrt_n j t

/-- model.py line 21: in-hospital cost term of the objective. -/
def in_hosp_cost (pp : Params) (sol : Sol) : ℝ :=
  lsum pp.P (fun i => pp.c_Hosp * pp.L_hosp i * (1 - sol.x i))

/-- model.py line 22: nurse-visit cost term of the objective. -/
def nurse_cost (pp : Params) (sol : Sol) : ℝ :=
  lsum pp.E (fun i => pp.c_N * pp.L_home i * sol.x i)

/-- model.py line 23: procurement cost term of the objective. -/
def procure_cost (pp : Params) (sol : Sol) : ℝ :=
  lsum pp.S (fun s => lsum pp.J (fun j =>
    lsum pp.T (fun t => pp.c_P s * sol.p s j t)))

/-- model.py line 24: inventory holding cost term of the objective. -/
def holding_cost (pp : Params) (sol : Sol) : ℝ :=
  lsum pp.S (fun s => lsum pp.J (fun j =>
    lsum pp.T (fun t => pp.c_V * sol.y s j t)))

/-- model.py line 27: transport cost term of the objective. -/
def transport_cost (pp : Params) (sol : Sol) : ℝ :=
  lsum pp.J (fun j => lsum pp.T (fun t => pp.c_D * sol.vrp_jt j t))

/-- model.py lines 29-32: the minimized objective, the sum of the five
cost terms. -/
def objective (pp : Params) (sol : Sol) : ℝ :=
  in_hosp_cost pp sol + nurse_cost pp sol + procure_cost pp sol
    + holding_cost pp sol + transport_cost pp sol

/-- A solution is optimal when it is feasible and no feasible solution has a
smaller objective value. -/
def IsOptimal (pp : Params) (dist : ℕ → ℕ → ℝ) (sol : Sol) : Prop :=
  Feasible pp dist sol ∧
    ∀ sol2, Feasible pp dist sol2 → objective pp sol ≤ objective pp sol2

/-- model.py lines 92-98: the cost breakdown computed at extraction time,
one (category, realized value) pair per objective term. -/
def cost_breakdown (pp : Params) (sol : Sol) : List (String × ℝ) :=
  [("In-Hospital", in_hosp_cost pp sol),
   ("Nurse Visits", nurse_cost pp sol),
   ("Procurement", procure_cost pp sol),
   ("Inventory", holding_cost pp sol),
   ("Transport", transport_cost pp sol)]

/-- The three ways the external solver's run can end that the spec
distinguishes (solver boundary, spec section 6). -/
inductive SolverStatus where
  | OPTIMAL : SolverStatus
  | TIME_LIMIT : SolverStatus
  | INFEASIBLE : SolverStatus
deriving DecidableEq

/-- What m.optimize() leaves on the model object: a status and the number of
incumbent solutions found (m.SolCount). A solver that proves infeasibility,
or times out without an incumbent, leaves SolCount = 0. -/
structure SolveOutcome where
  status : SolverStatus
  SolCount : ℕ
deriving DecidableEq

/-- model.py lines 89-102: after m.optimize(), the caller receives the triple
(m, variables, cost_breakdown) when m.SolCount > 0, and (None, None, None)
otherwise; the branch inspects only SolCount, never the status. -/
def solve_return {α : Type} (o : SolveOutcome) (extracted : α) : Option α :=
  if 0 < o.SolCount then some extracted else none

/-- model.py line 99: the variable-group names of the dictionary handed back
to the caller, in source order: x=select, y=inventory, z=deliver, a=served,
p=procure, n_jt=deliveryCount. -/
def returned_variable_groups : List String := ["x", "y", "z", "a", "p", "n_jt"]

/-- Modelled from the spec (persisted-solution contract, section 6): the
variable groups the contract names, written with the source's variable names
(select=x, inventory=y, deliver=z, served=a, procure=p, deliveryCount=n_jt,
routingCost=vrp_jt).  Kept separate from returned_variable_groups so the two
can be compared. -/
def spec_contract_groups : List String :=
  ["x", "y", "z", "a", "p", "n_jt", "vrp_jt"]

/-- model.py line 13: index keys of the x (select) group, one per patient. -/
def x_keys (pp : Params) : List ℕ := pp.P

/-- model.py lines 14 and 16: index keys of the y (inventory) and p (procure)
groups, (bundle, depot, day) triples. -/
def y_keys (pp : Params) : List (ℕ × ℕ × ℕ) :=
  pp.S ×ˢ (pp.J ×ˢ pp.T)

/-- model.py line 15: index keys of the z (deliver) group,
(bundle, patient, depot, day) quadruples over eligible patients. -/
def z_keys (pp : Params) : List (ℕ × ℕ × ℕ × ℕ) :=
  pp.S ×ˢ (pp.E ×ˢ (pp.J ×ˢ pp.T))

/-- model.py line 17: index keys of the a (served) group,
(patient, depot, day) triples over eligible patients. -/
def a_keys (pp : Params) : List (ℕ × ℕ × ℕ) :=
  pp.E ×ˢ (pp.J ×ˢ pp.T)

/-- model.py line 18: index keys of the n_jt (deliveryCount) group,
(depot, day) pairs. -/
def n_jt_keys (pp : Params) : List (ℕ × ℕ) :=
  pp.J ×ˢ pp.T

/-- A constant distance matrix: every entry is 5 km. -/
def dist5 : ℕ → ℕ → ℝ := fun _ _ => 5

/-- A distance matrix filled with the provider's -1 sentinel
(utils.py line 78 writes -1 for elements whose status is not OK). -/
def distNeg : ℕ → ℕ → ℝ := fun _ _ => -1

/-- A one-patient, one-bundle, one-depot, one-day parameter set with no
demand. -/
def pp0 : Params where
  P := [0]
  E := [0]
  H := []
  S := [0]
  J := [0]
  num_J := 1
  horizon := 1
  B := 1
  c_Hosp := 300
  c_N := 250
  c_V := 3
  c_D := 2
  c_P := fun _ => 50
  L_hosp := fun _ => 3
  L_home := fun _ => 5
  demand := []
  bigM := 10
  gamma := 4
  beta := 1

/-- A feasible point of the pp0 model: the patient stays in hospital, nothing
is delivered, yet one vehicle and a positive average distance are assigned on
the empty day. -/
def sol0 : Sol where
  x := fun _ => 0
  y := fun _ _ _ => 0
  z := fun _ _ _ _ => 0
  p := fun _ _ _ => 0
  a := fun _ _ _ => 0
  n_jt := fun _ _ => 0
  num_vehicles := fun _ _ => 1
  avg_dist := fun _ _ => 5
  sqrt_n := fun _ _ => 0
  vrp_jt := fun _ _ => 10

lemma feasible_pp0_sol0 (dist : ℕ → ℕ → ℝ) : Feasible pp0 dist sol0 where
  x_binary := by intro i _; left; rfl
  y_nonneg := by intros; simp [sol0]
  z_nonneg := by intros; simp [sol0]
  p_nonneg := by intros; simp [sol0]
  a_binary := by intro i _ j _ t _; left; rfl
  n_nonneg := by intros; simp [sol0]
  ineligibility := by intro i hi; simp [pp0] at hi
  bed_capacity := by simp [pp0, sol0, lsum]
  demand_fulfillment := by intros; simp [pp0, sol0, lsum, dget]
  inventory_day0 := by intros; simp [pp0, sol0, lsum]
  inventory_balance := by intros; simp [pp0, sol0, lsum]
  link_z_a := by intros; simp [pp0, sol0, lsum]
  count_deliveries := by intros; simp [pp0, sol0, lsum]
  num_vehicles_int := by intro j _ t _; exact ⟨1, by simp [sol0]⟩
  calc_vehicles := by intro j _ t _; simp [pp0, sol0]
  avg_dist_nonneg := by intros; simp [sol0]
  avg_dist_calc := by intros; simp [pp0, sol0, lsum, total_one_way_distance]
  sqrt_n_nonneg := by intros; simp [sol0]
  pow_sqrt_n := by intros; simp [sol0]
  vrp_nonneg := by intros; simp [sol0]
  vrp_cost_def := by intros; simp [pp0, sol0]; norm_num

/-- pp0 with one unit of demand for bundle 0, patient 0, day 0. -/
def pp1 : Params := { pp0 with demand := [((0, 0, 0), 1)] }

/-- A feasible point of the pp1 model under dist5: the patient is treated at
home, one unit is procured and delivered, the patient is served. -/
def sol1 : Sol where
  x := fun _ => 1
  y := fun _ _ _ => 0
  z := fun _ _ _ _ => 1
  p := fun _ _ _ => 1
  a := fun _ _ _ => 1
  n_jt := fun _ _ => 1
  num_vehicles := fun _ _ => 1
  avg_dist := fun _ _ => 5
  sqrt_n := fun _ _ => 1
  vrp_jt := fun _ _ => 11

lemma feasible_pp1_sol1 : Feasible pp1 dist5 sol1 where
  x_binary := by intro i _; right; rfl
  y_nonneg := by intros; simp [sol1]
  z_nonneg := by intros; simp [sol1]
  p_nonneg := by intros; simp [sol1]
  a_binary := by intro i _ j _ t _; right; rfl
  n_nonneg := by intros; simp [sol1]
  ineligibility := by intro i hi; simp [pp1, pp0] at hi
  bed_capacity := by simp [pp1, pp0, sol1, lsum]
  demand_fulfillment := by
    intro s hs i hi t ht
    simp [pp1, pp0, Nat.lt_one_iff] at hs hi ht
    subst hs; subst hi; subst ht
    simp [pp1, pp0, sol1, lsum, dget, List.lookup]
  inventory_day0 := by intros; simp [pp1, pp0, sol1, lsum]
  inventory_balance := by
    intro s _ j _ t ht
    simp [pp1, pp0] at ht
  link_z_a := by intros; simp [pp1, pp0, sol1, lsum]
  count_deliveries := by intros; simp [pp1, pp0, sol1, lsum]
  num_vehicles_int := by intro j _ t _; exact ⟨1, by simp [sol1]⟩
  calc_vehicles := by intro j _ t _; simp [pp1, pp0, sol1]
  avg_dist_nonneg := by intros; simp [sol1]
  avg_dist_calc := by
    intros; simp [pp1, pp0, sol1, lsum, total_one_way_distance, dist5]
  sqrt_n_nonneg := by intros; simp [sol1]
  pow_sqrt_n := by intros; simp [sol1]
  vrp_nonneg := by intros; simp [sol1]
  vrp_cost_def := by intros; simp [pp1, pp0, sol1]; norm_num

/-- A parameter set with no patients and no bundles, one depot, one day, unit
delivery cost, and bed capacity b. -/
def ppOb (b : ℝ) : Params where
  P := []
  E := []
  H := []
  S := []
  J := [0]
  num_J := 1
  horizon := 1
  B := b
  c_Hosp := 300
  c_N := 250
  c_V := 3
  c_D := 1
  c_P := fun _ => 50
  L_hosp := fun _ => 3
  L_home := fun _ => 5
  demand := []
  bigM := 10
  gamma := 4
  beta := 1

/-- The all-zero assignment. -/
def solZero : Sol where
  x := fun _ => 0
  y := fun _ _ _ => 0
  z := fun _ _ _ _ => 0
  p := fun _ _ _ => 0
  a := fun _ _ _ => 0
  n_jt := fun _ _ => 0
  num_vehicles := fun _ _ => 0
  avg_dist := fun _ _ => 0
  sqrt_n := fun _ _ => 0
  vrp_jt := fun _ _ => 0

lemma feasible_ppOb_solZero (b : ℝ) (hb : 0 ≤ b) (dist : ℕ → ℕ → ℝ) :
    Feasible (ppOb b) dist solZero where
  x_binary := by intro i hi; simp [ppOb] at hi
  y_nonneg := by intros; simp [solZero]
  z_nonneg := by intros; simp [solZero]
  p_nonneg := by intros; simp [solZero]
  a_binary := by intro i hi; simp [ppOb] at hi
  n_nonneg := by intros; simp [solZero]
  ineligibility := by intro i hi; simp [ppOb] at hi
  bed_capacity := by simpa [ppOb, solZero, lsum] using hb
  demand_fulfillment := by intro s _ i hi; simp [ppOb] at hi
  inventory_day0 := by intro s hs; simp [ppOb] at hs
  inventory_balance := by intro s hs; simp [ppOb] at hs
  link_z_a := by intro i hi; simp [ppOb] at hi
  count_deliveries := by intros; simp [ppOb, solZero, lsum]
  num_vehicles_int := by intro j _ t _; exact ⟨0, by simp [solZero]⟩
  calc_vehicles := by intros; simp [ppOb, solZero]
  avg_dist_nonneg := by intros; simp [solZero]
  avg_dist_calc := by intros; simp [ppOb, solZero, lsum, total_one_way_distance]
  sqrt_n_nonneg := by intros; simp [solZero]
  pow_sqrt_n := by intros; simp [solZero]
  vrp_nonneg := by intros; simp [solZero]
  vrp_cost_def := by intros; simp [ppOb, solZero]

lemma objective_ppOb (b : ℝ) (sol : Sol) :
    objective (ppOb b) sol = sol.vrp_jt 0 0 := by
  simp [objective, in_hosp_cost, nurse_cost, procure_cost, holding_cost,
    transport_cost, ppOb, Params.T, lsum, List.range_succ]

lemma isOptimal_ppOb (b : ℝ) (hb : 0 ≤ b) (dist : ℕ → ℕ → ℝ) :
    IsOptimal (ppOb b) dist solZero := by
  refine ⟨feasible_ppOb_solZero b hb dist, ?_⟩
  intro sol2 h2
  rw [objective_ppOb, objective_ppOb]
  have := h2.vrp_nonneg 0 (by simp [ppOb]) 0 (by simp [ppOb])
  simpa [solZero] using this

lemma lsum_congr (l : List ℕ) (f g : ℕ → ℝ) (h : ∀ i ∈ l, f i = g i) :
    lsum l f = lsum l g := by
  unfold lsum
  exact congrArg List.sum (List.map_congr_left h)

/-- Changing a summand at one index of a duplicate-free index list changes the
sum by the difference at that index. -/
lemma lsum_update (l : List ℕ) (hl : l.Nodup) (f g : ℕ → ℝ) (j : ℕ)
    (hj : j ∈ l) (hagree : ∀ i ∈ l, i ≠ j → g i = f i) :
    lsum l g = lsum l f - f j + g j := by
  induction l with
  | nil => simp at hj
  | cons a lt ih =>
    have hl2 := List.nodup_cons.mp hl
    rcases List.mem_cons.mp hj with rfl | hjl
    · have hg : lsum lt g = lsum lt f := by
        refine lsum_congr lt g f (fun i hi => ?_)
        refine hagree i (List.mem_cons_of_mem _ hi) (fun he => hl2.1 ?_)
        rw [← he]; exact hi
      simp only [lsum, List.map_cons, List.sum_cons] at hg ⊢
      rw [hg]; ring
    · have ha : g a = f a := by
        refine hagree a (List.mem_cons_self a lt) (fun he => hl2.1 ?_)
        rw [he]; exact hjl
      have hrec := ih hl2.2 hjl
        (fun i hi hne => hagree i (List.mem_cons_of_mem _ hi) hne)
      simp only [lsum, List.map_cons, List.sum_cons] at hrec ⊢
      rw [ha, hrec]; ring

/-- C1: In every feasible solution of the assembled model, for every bundle s,
eligible patient i and day t, the deliveries to i summed over depots equal
demand(s,i,t) times select[i], where demand defaults to 0 for absent keys; in
particular a patient with select[i] = 0 receives exactly zero, a patient with
select[i] = 1 receives the demand in full (never partially), and an absent
demand key forces zero deliveries. -/
theorem C1_demand_exactness (pp : Params) (dist : ℕ → ℕ → ℝ) (sol : Sol)
    (hf : Feasible pp dist sol) :
    ∀ s ∈ pp.S, ∀ i ∈ pp.E, ∀ t < pp.horizon,
      lsum pp.J (fun j => sol.z s i j t) = dget pp.demand (s, i, t) * sol.x i
      ∧ (sol.x i = 0 → lsum pp.J (fun j => sol.z s i j t) = 0)
      ∧ (sol.x i = 1 →
          lsum pp.J (fun j => sol.z s i j t) = dget pp.demand (s, i, t))
      ∧ (List.lookup (s, i, t) pp.demand = none →
          lsum pp.J (fun j => sol.z s i j t) = 0) := by
  intro s hs i hi t ht
  have h := hf.demand_fulfillment s hs i hi t ht
  refine ⟨h, ?_, ?_, ?_⟩
  · intro h0; rw [h, h0, mul_zero]
  · intro h1; rw [h, h1, mul_one]
  · intro habs; rw [h]; unfold dget; rw [habs]; simp

/-- C1 witness: the one-patient instance pp1 with demand 1 at (0,0,0) and its
feasible home-treatment solution sol1. -/
theorem C1_demand_exactness_witness :
    lsum pp1.J (fun j => sol1.z 0 0 j 0) = dget pp1.demand (0, 0, 0) * sol1.x 0
    ∧ (sol1.x 0 = 0 → lsum pp1.J (fun j => sol1.z 0 0 j 0) = 0)
    ∧ (sol1.x 0 = 1 →
        lsum pp1.J (fun j => sol1.z 0 0 j 0) = dget pp1.demand (0, 0, 0))
    ∧ (List.lookup (0, 0, 0) pp1.demand = none →
        lsum pp1.J (fun j => sol1.z 0 0 j 0) = 0) :=
  C1_demand_exactness pp1 dist5 sol1 feasible_pp1_sol1
    0 (by simp [pp1, pp0]) 0 (by simp [pp1, pp0]) 0 (by simp [pp1, pp0])

/-- C2: In every feasible solution, for every bundle s and depot j, inventory
satisfies the zero-initial-stock recursion, inventory[s,j,0] = procure[s,j,0]
minus day-0 deliveries, inventory[s,j,t] = inventory[s,j,t-1] + procure[s,j,t]
minus day-t deliveries for 0 < t < horizon, and inventory is never
negative. -/
theorem C2_inventory_recursion (pp : Params) (dist : ℕ → ℕ → ℝ) (sol : Sol)
    (hf : Feasible pp dist sol) :
    ∀ s ∈ pp.S, ∀ j ∈ pp.J,
      sol.y s j 0 = sol.p s j 0 - lsum pp.E (fun i => sol.z s i j 0)
      ∧ (∀ t, 0 < t → t < pp.horizon →
          sol.y s j t = sol.y s j (t - 1) + sol.p s j t
            - lsum pp.E (fun i => sol.z s i j t))
      ∧ (∀ t < pp.horizon, 0 ≤ sol.y s j t) := by
  intro s hs j hj
  refine ⟨?_, ?_, fun t ht => hf.y_nonneg s hs j hj t ht⟩
  · have h := hf.inventory_day0 s hs j hj
    linarith
  · intro t ht0 ht
    have h1 : t - 1 + 1 = t := Nat.succ_pred_eq_of_pos ht0
    have h := hf.inventory_balance s hs j hj (t - 1) (by omega)
    rw [h1] at h
    linarith

/-- C2 witness: the concrete instance pp1 with its feasible solution sol1 at
bundle 0, depot 0. -/
theorem C2_inventory_recursion_witness :
    sol1.y 0 0 0 = sol1.p 0 0 0 - lsum pp1.E (fun i => sol1.z 0 i 0 0)
    ∧ (∀ t, 0 < t → t < pp1.horizon →
        sol1.y 0 0 t = sol1.y 0 0 (t - 1) + sol1.p 0 0 t
          - lsum pp1.E (fun i => sol1.z 0 i 0 t))
    ∧ (∀ t < pp1.horizon, 0 ≤ sol1.y 0 0 t) :=
  C2_inventory_recursion pp1 dist5 sol1 feasible_pp1_sol1
    0 (by simp [pp1, pp0]) 0 (by simp [pp1, pp0])

/-- C5 counterexample: a solver run that proved infeasibility (status
INFEASIBLE, no incumbent) and a run that hit the time limit with no incumbent
produce the very same return value (None, None, None): the claim that the two
outcomes are reported differently is false of model.py lines 89-102, whose
branch inspects only SolCount. -/
theorem C5_infeasible_vs_timeout_cex :
    solve_return (SolveOutcome.mk SolverStatus.INFEASIBLE 0) (0 : ℕ)
      = solve_return (SolveOutcome.mk SolverStatus.TIME_LIMIT 0) (0 : ℕ) := by
  rfl

/-- C5 (amended): whenever the solver leaves no incumbent (SolCount = 0) the
caller receives None regardless of the status, so a proven-infeasible model is
reported identically to a timeout with no incumbent; the code does not
distinguish the two outcomes. -/
theorem C5_no_incumbent_returns_none {α : Type} (o : SolveOutcome)
    (extracted : α) (h : o.SolCount = 0) :
    solve_return o extracted = none := by
  unfold solve_return
  rw [h]
  simp

/-- C5 witness: the INFEASIBLE outcome with SolCount 0. -/
theorem C5_no_incumbent_returns_none_witness :
    solve_return (SolveOutcome.mk SolverStatus.INFEASIBLE 0) (0 : ℕ) = none :=
  C5_no_incumbent_returns_none (SolveOutcome.mk SolverStatus.INFEASIBLE 0)
    (0 : ℕ) rfl

/-- C6: with bed capacity 0 and a non-empty ineligible set contained in the
patient set, the assembled constraint system admits no feasible point: the
ineligibility constraint fixes select[i0] = 0, so the hospitalized count is at
least 1, exceeding the zero capacity. -/
theorem C6_zero_capacity_infeasible (pp : Params) (dist : ℕ → ℕ → ℝ)
    (sol : Sol) (i0 : ℕ) (hB : pp.B = 0) (hi0H : i0 ∈ pp.H)
    (hi0P : i0 ∈ pp.P) : ¬ Feasible pp dist sol := by
  intro hf
  have hx0 : sol.x i0 = 0 := hf.ineligibility i0 hi0H
  have hmem : (1 : ℝ) - sol.x i0 ∈ pp.P.map (fun i => 1 - sol.x i) :=
    List.mem_map_of_mem _ hi0P
  have hnn : ∀ r ∈ pp.P.map (fun i => 1 - sol.x i), (0 : ℝ) ≤ r := by
    intro r hr
    obtain ⟨i, hiP, rfl⟩ := List.mem_map.1 hr
    rcases hf.x_binary i hiP with h | h <;> rw [h] <;> norm_num
  have hle : (1 : ℝ) - sol.x i0 ≤ lsum pp.P (fun i => 1 - sol.x i) :=
    List.single_le_sum hnn _ hmem
  have hcap := hf.bed_capacity
  rw [hB] at hcap
  rw [hx0] at hle
  linarith

/-- A two-patient parameter set in which both patients are ineligible and the
bed capacity is zero. -/
def ppH : Params := { pp0 with P := [0, 1], H := [0, 1], E := [], B := 0 }

/-- C6 witness: the concrete zero-capacity instance ppH admits no feasible
point; in particular the all-zero assignment is infeasible. -/
theorem C6_zero_capacity_infeasible_witness :
    ¬ Feasible ppH dist5 solZero :=
  C6_zero_capacity_infeasible ppH dist5 solZero 0 rfl
    (by simp [ppH]) (by simp [ppH])

/-- C10: the five cost-breakdown values computed at extraction (In-Hospital,
Nurse Visits, Procurement, Inventory, Transport) sum exactly to the model's
objective value, the total cost reported for the solution. -/
theorem C10_breakdown_sums_to_total (pp : Params) (sol : Sol) :
    ((cost_breakdown pp sol).map Prod.snd).sum = objective pp sol := by
  simp [cost_breakdown, objective]
  ring

/-- C3 counterexample: the claim says every feasible solution has
vehicleCount equal to the ceiling of deliveryCount / nurseCapacity; in the
feasible point sol0 of pp0 the delivery count is 0 with ceiling 0, yet
num_vehicles is 1 (the model only constrains num_vehicles * gamma to be at
least n_jt). -/
theorem C3_ceiling_equality_cex :
    Feasible pp0 dist5 sol0
    ∧ sol0.num_vehicles 0 0 ≠ ((⌈sol0.n_jt 0 0 / pp0.gamma⌉ : ℤ) : ℝ) := by
  refine ⟨feasible_pp0_sol0 dist5, ?_⟩
  have h : sol0.n_jt 0 0 / pp0.gamma = 0 := by
    simp [sol0, pp0]
  rw [h]
  simp [sol0]

/-- C3 (amended): in every feasible solution, for every depot j and day t, the
decision-coupled Variant A relations hold: num_vehicles is a nonnegative
integer with num_vehicles * gamma at least n_jt (hence at least the ceiling of
n_jt / gamma, though not necessarily equal to it); avg_dist * n_jt equals the
sum over eligible patients of a[i,j,t] times the matrix entry (j, num_J + i);
sqrt_n equals the square root of n_jt; and vrp_jt equals
num_vehicles * 2 * avg_dist + beta * sqrt_n. -/
theorem C3_variant_a_relations (pp : Params) (dist : ℕ → ℕ → ℝ) (sol : Sol)
    (hf : Feasible pp dist sol) (hgam : 0 < pp.gamma) :
    ∀ j ∈ pp.J, ∀ t < pp.horizon,
      (∃ k : ℕ, sol.num_vehicles j t = k)
      ∧ sol.num_vehicles j t * pp.gamma ≥ sol.n_jt j t
      ∧ ((⌈sol.n_jt j t / pp.gamma⌉ : ℤ) : ℝ) ≤ sol.num_vehicles j t
      ∧ sol.avg_dist j t * sol.n_jt j t
          = total_one_way_distance pp dist sol.a j t
      ∧ sol.sqrt_n j t = Real.sqrt (sol.n_jt j t)
      ∧ sol.vrp_jt j t
          = sol.num_vehicles j t * 2 * sol.avg_dist j t
            + pp.beta * sol.sqrt_n j t := by
  intro j hj t ht
  obtain ⟨k, hk⟩ := hf.num_vehicles_int j hj t ht
  have hge := hf.calc_vehicles j hj t ht
  refine ⟨⟨k, hk⟩, hge, ?_, hf.avg_dist_calc j hj t ht,
    hf.pow_sqrt_n j hj t ht, hf.vrp_cost_def j hj t ht⟩
  have hdiv : sol.n_jt j t / pp.gamma ≤ ((k : ℤ) : ℝ) := by
    rw [div_le_iff₀ hgam]
    push_cast
    rw [← hk]
    linarith [hge]
  have hceil : ⌈sol.n_jt j t / pp.gamma⌉ ≤ (k : ℤ) := Int.ceil_le.mpr hdiv
  rw [hk]
  exact_mod_cast hceil

/-- C3 witness: the concrete instance pp1 with its feasible solution sol1 at
depot 0, day 0. -/
theorem C3_variant_a_relations_witness :
    (∃ k : ℕ, sol1.num_vehicles 0 0 = k)
    ∧ sol1.num_vehicles 0 0 * pp1.gamma ≥ sol1.n_jt 0 0
    ∧ ((⌈sol1.n_jt 0 0 / pp1.gamma⌉ : ℤ) : ℝ) ≤ sol1.num_vehicles 0 0
    ∧ sol1.avg_dist 0 0 * sol1.n_jt 0 0
        = total_one_way_distance pp1 dist5 sol1.a 0 0
    ∧ sol1.sqrt_n 0 0 = Real.sqrt (sol1.n_jt 0 0)
    ∧ sol1.vrp_jt 0 0
        = sol1.num_vehicles 0 0 * 2 * sol1.avg_dist 0 0
          + pp1.beta * sol1.sqrt_n 0 0 :=
  C3_variant_a_relations pp1 dist5 sol1 feasible_pp1_sol1
    (by norm_num [pp1, pp0]) 0 (by simp [pp1, pp0]) 0 (by simp [pp1, pp0])

/-- An assignment in which every patient is served on every day from every
depot. -/
def aAll : ℕ → ℕ → ℕ → ℝ := fun _ _ _ => 1

/-- C7 counterexample: with the all-negative sentinel matrix distNeg the
builder rejects nothing: the assembled model still admits the feasible point
sol0, and the routing-cost constraint term built at line 67 of model.py
evaluates the sentinel as a distance, giving total one-way distance -1 for a
served patient. -/
theorem C7_negative_distance_cex :
    Feasible pp0 distNeg sol0
    ∧ total_one_way_distance pp0 distNeg aAll 0 0 = -1 := by
  refine ⟨feasible_pp0_sol0 distNeg, ?_⟩
  simp [total_one_way_distance, pp0, distNeg, aAll, lsum]

/-- C7 (amended): build_and_solve_model performs no validation of the distance
matrix: a negative sentinel entry is used verbatim as the distance coefficient
in the routing-cost constraints. Because avg_dist is bounded below by 0, its
only effect is indirect: when the eligible set is the single patient i0 and
the entry (j, num_J + i0) is negative, no feasible solution can serve i0 from
depot j on any day. -/
theorem C7_negative_distance_blocks_service (pp : Params)
    (dist : ℕ → ℕ → ℝ) (sol : Sol) (i0 j t : ℕ) (hf : Feasible pp dist sol)
    (hE : pp.E = [i0]) (hj : j ∈ pp.J) (ht : t < pp.horizon)
    (hneg : dist j (pp.num_J + i0) < 0) :
    sol.a i0 j t = 0 := by
  have hiE : i0 ∈ pp.E := by rw [hE]; exact List.mem_singleton_self i0
  rcases hf.a_binary i0 hiE j hj t ht with h0 | h1
  · exact h0
  · exfalso
    have hcount := hf.count_deliveries j hj t ht
    rw [hE] at hcount
    have hn1 : sol.n_jt j t = 1 := by simpa [lsum, h1] using hcount
    have hcalc := hf.avg_dist_calc j hj t ht
    have htot : total_one_way_distance pp dist sol.a j t
        = dist j (pp.num_J + i0) := by
      simp [total_one_way_distance, hE, lsum, h1]
    rw [hn1, htot, mul_one] at hcalc
    have havg := hf.avg_dist_nonneg j hj t ht
    linarith

/-- C7 witness: on the concrete instance pp0 with the sentinel matrix distNeg,
the feasible point sol0 indeed serves nobody at depot 0, day 0. -/
theorem C7_negative_distance_blocks_service_witness :
    sol0.a 0 0 0 = 0 :=
  C7_negative_distance_blocks_service pp0 distNeg sol0 0 0 0
    (feasible_pp0_sol0 distNeg) rfl (by simp [pp0]) (by simp [pp0])
    (by norm_num [distNeg])

/-- C4 counterexample: the claim says routingCost is 0 in every feasible
solution with deliveryCount 0; the feasible point sol0 of pp0 has n_jt = 0 at
depot 0, day 0, yet vrp_jt = 10 there (one idle vehicle paired with a positive
avg_dist satisfies every constraint, since avg_dist * 0 = 0 holds for any
avg_dist). -/
theorem C4_zero_count_routing_cex :
    Feasible pp0 dist5 sol0
    ∧ sol0.n_jt 0 0 = 0
    ∧ sol0.vrp_jt 0 0 ≠ 0 := by
  refine ⟨feasible_pp0_sol0 dist5, rfl, ?_⟩
  norm_num [sol0]

/-- The solution obtained by zeroing avg_dist and vrp_jt at one (depot, day)
pair and leaving every other variable unchanged. -/
def zeroRouting (sol : Sol) (j t : ℕ) : Sol :=
  { sol with
    avg_dist := fun j2 t2 =>
      if j2 = j ∧ t2 = t then 0 else sol.avg_dist j2 t2,
    vrp_jt := fun j2 t2 =>
      if j2 = j ∧ t2 = t then 0 else sol.vrp_jt j2 t2 }

lemma feasible_zeroRouting (pp : Params) (dist : ℕ → ℕ → ℝ) (sol : Sol)
    (j t : ℕ) (hf : Feasible pp dist sol) (hj : j ∈ pp.J)
    (ht : t < pp.horizon) (hn : sol.n_jt j t = 0)
    (hsq : sol.sqrt_n j t = 0) :
    Feasible pp dist (zeroRouting sol j t) where
  x_binary := hf.x_binary
  y_nonneg := hf.y_nonneg
  z_nonneg := hf.z_nonneg
  p_nonneg := hf.p_nonneg
  a_binary := hf.a_binary
  n_nonneg := hf.n_nonneg
  ineligibility := hf.ineligibility
  bed_capacity := hf.bed_capacity
  demand_fulfillment := hf.demand_fulfillment
  inventory_day0 := hf.inventory_day0
  inventory_balance := hf.inventory_balance
  link_z_a := hf.link_z_a
  count_deliveries := hf.count_deliveries
  num_vehicles_int := hf.num_vehicles_int
  calc_vehicles := hf.calc_vehicles
  avg_dist_nonneg := by
    intro j2 hj2 t2 ht2
    by_cases hc : j2 = j ∧ t2 = t
    · simp [zeroRouting, hc]
    · simpa [zeroRouting, hc] using hf.avg_dist_nonneg j2 hj2 t2 ht2
  avg_dist_calc := by
    intro j2 hj2 t2 ht2
    by_cases hc : j2 = j ∧ t2 = t
    · obtain ⟨rfl, rfl⟩ := hc
      have htot : total_one_way_distance pp dist sol.a j2 t2 = 0 := by
        rw [← hf.avg_dist_calc j2 hj2 t2 ht2, hn, mul_zero]
      simp [zeroRouting, hn, htot]
    · simpa [zeroRouting, hc] using hf.avg_dist_calc j2 hj2 t2 ht2
  sqrt_n_nonneg := hf.sqrt_n_nonneg
  pow_sqrt_n := hf.pow_sqrt_n
  vrp_nonneg := by
    intro j2 hj2 t2 ht2
    by_cases hc : j2 = j ∧ t2 = t
    · simp [zeroRouting, hc]
    · simpa [zeroRouting, hc] using hf.vrp_nonneg j2 hj2 t2 ht2
  vrp_cost_def := by
    intro j2 hj2 t2 ht2
    by_cases hc : j2 = j ∧ t2 = t
    · obtain ⟨rfl, rfl⟩ := hc
      simp [zeroRouting, hsq]
    · simpa [zeroRouting, hc] using hf.vrp_cost_def j2 hj2 t2 ht2

lemma transport_cost_zeroRouting (pp : Params) (sol : Sol) (j t : ℕ)
    (hJ : pp.J.Nodup) (hj : j ∈ pp.J) (ht : t < pp.horizon) :
    transport_cost pp (zeroRouting sol j t)
      = transport_cost pp sol - pp.c_D * sol.vrp_jt j t := by
  have htT : t ∈ pp.T := List.mem_range.mpr ht
  have hinner : lsum pp.T
      (fun t2 => pp.c_D * (zeroRouting sol j t).vrp_jt j t2)
      = lsum pp.T (fun t2 => pp.c_D * sol.vrp_jt j t2)
        - pp.c_D * sol.vrp_jt j t + pp.c_D * 0 := by
    have hup := lsum_update pp.T (List.nodup_range _)
      (fun t2 => pp.c_D * sol.vrp_jt j t2)
      (fun t2 => pp.c_D * (zeroRouting sol j t).vrp_jt j t2) t htT
      (fun t2 _ hne => by simp [zeroRouting, hne])
    rw [hup]
    simp [zeroRouting]
  have houter := lsum_update pp.J hJ
    (fun j2 => lsum pp.T (fun t2 => pp.c_D * sol.vrp_jt j2 t2))
    (fun j2 => lsum pp.T (fun t2 => pp.c_D * (zeroRouting sol j t).vrp_jt j2 t2))
    j hj
    (fun j2 _ hne => lsum_congr _ _ _ (fun t2 _ => by simp [zeroRouting, hne]))
  unfold transport_cost
  rw [houter]
  beta_reduce
  rw [hinner]
  ring

lemma objective_zeroRouting (pp : Params) (sol : Sol) (j t : ℕ)
    (hJ : pp.J.Nodup) (hj : j ∈ pp.J) (ht : t < pp.horizon) :
    objective pp (zeroRouting sol j t)
      = objective pp sol - pp.c_D * sol.vrp_jt j t := by
  have h1 : in_hosp_cost pp (zeroRouting sol j t) = in_hosp_cost pp sol := rfl
  have h2 : nurse_cost pp (zeroRouting sol j t) = nurse_cost pp sol := rfl
  have h3 : procure_cost pp (zeroRouting sol j t) = procure_cost pp sol := rfl
  have h4 : holding_cost pp (zeroRouting sol j t) = holding_cost pp sol := rfl
  unfold objective
  rw [h1, h2, h3, h4, transport_cost_zeroRouting pp sol j t hJ hj ht]
  ring

/-- C4 (amended): in every feasible solution with deliveryCount[j,t] = 0 the
square-root term is 0 and the constraint system at (j,t) is satisfied, but
routingCost[j,t] = 0 is not forced by feasibility alone (see the
counterexample); it does hold in every OPTIMAL solution when the per-km
delivery cost is positive and the depot list is duplicate-free, because zeroing
avg_dist and vrp_jt at (j,t) preserves feasibility and strictly lowers the
objective otherwise. -/
theorem C4_zero_count_routing_optimal (pp : Params) (dist : ℕ → ℕ → ℝ)
    (sol : Sol) (j t : ℕ) (hopt : IsOptimal pp dist sol)
    (hc : 0 < pp.c_D) (hJ : pp.J.Nodup) (hj : j ∈ pp.J) (ht : t < pp.horizon)
    (hn : sol.n_jt j t = 0) :
    sol.sqrt_n j t = 0 ∧ sol.vrp_jt j t = 0 := by
  obtain ⟨hf, hmin⟩ := hopt
  have hsq : sol.sqrt_n j t = 0 := by
    rw [hf.pow_sqrt_n j hj t ht, hn, Real.sqrt_zero]
  refine ⟨hsq, ?_⟩
  by_contra hvrp
  have hvrp_pos : 0 < sol.vrp_jt j t :=
    lt_of_le_of_ne (hf.vrp_nonneg j hj t ht) (Ne.symm hvrp)
  have hf2 : Feasible pp dist (zeroRouting sol j t) :=
    feasible_zeroRouting pp dist sol j t hf hj ht hn hsq
  have hle := hmin (zeroRouting sol j t) hf2
  rw [objective_zeroRouting pp sol j t hJ hj ht] at hle
  nlinarith [mul_pos hc hvrp_pos]

/-- C4 witness: on the patient-free instance ppOb 0 the all-zero assignment is
optimal, has deliveryCount 0 at depot 0, day 0, and there both sqrt_n and
vrp_jt are 0. -/
theorem C4_zero_count_routing_optimal_witness :
    solZero.sqrt_n 0 0 = 0 ∧ solZero.vrp_jt 0 0 = 0 :=
  C4_zero_count_routing_optimal (ppOb 0) dist5 solZero 0 0
    (isOptimal_ppOb 0 le_rfl dist5) (by norm_num [ppOb]) (by simp [ppOb])
    (by simp [ppOb]) (by simp [ppOb]) rfl

/-- C8: relaxing the bed capacity never increases the optimal total cost: for
B1 at most B2, every solution feasible at capacity B1 stays feasible at B2,
and any optimum of the B2 model costs at most any optimum of the B1 model.
The bed capacity enters the model only as the right-hand side of the
bed-capacity constraint. -/
theorem C8_bed_capacity_monotone (pp : Params) (dist : ℕ → ℕ → ℝ)
    (B1 B2 : ℝ) (h12 : B1 ≤ B2) :
    (∀ sol, Feasible { pp with B := B1 } dist sol →
        Feasible { pp with B := B2 } dist sol)
    ∧ (∀ sol1 sol2, IsOptimal { pp with B := B1 } dist sol1 →
        IsOptimal { pp with B := B2 } dist sol2 →
        objective { pp with B := B2 } sol2
          ≤ objective { pp with B := B1 } sol1) := by
  have hmono : ∀ sol, Feasible { pp with B := B1 } dist sol →
      Feasible { pp with B := B2 } dist sol := by
    intro sol hf
    exact { hf with bed_capacity := le_trans hf.bed_capacity h12 }
  refine ⟨hmono, ?_⟩
  intro sol1 sol2 hopt1 hopt2
  exact hopt2.2 sol1 (hmono sol1 hopt1.1)

/-- C8 witness: on the patient-free instance ppOb the all-zero assignment is
optimal at bed capacity 0 and at bed capacity 1, and the optimum at the looser
capacity costs no more. -/
theorem C8_bed_capacity_monotone_witness :
    IsOptimal { ppOb 0 with B := (0 : ℝ) } dist5 solZero
    ∧ IsOptimal { ppOb 0 with B := (1 : ℝ) } dist5 solZero
    ∧ objective { ppOb 0 with B := (1 : ℝ) } solZero
        ≤ objective { ppOb 0 with B := (0 : ℝ) } solZero := by
  have h0 : IsOptimal { ppOb 0 with B := (0 : ℝ) } dist5 solZero :=
    isOptimal_ppOb 0 le_rfl dist5
  have h1 : IsOptimal { ppOb 0 with B := (1 : ℝ) } dist5 solZero :=
    isOptimal_ppOb 1 (by norm_num) dist5
  exact ⟨h0, h1,
    (C8_bed_capacity_monotone (ppOb 0) dist5 0 1 (by norm_num)).2
      solZero solZero h0 h1⟩

/-- C9 counterexample: the persisted-solution contract names a routingCost
(vrp_jt) group keyed by (depot, day), but the variables dictionary built at
model.py line 99 and persisted by main.py lines 54-58 contains no such group:
only x, y, z, a, p and n_jt are returned. -/
theorem C9_routing_group_missing_cex :
    "vrp_jt" ∈ spec_contract_groups
    ∧ "vrp_jt" ∉ returned_variable_groups := by
  constructor
  · simp [spec_contract_groups]
  · simp [returned_variable_groups]

/-- C9 (amended): the extraction returns exactly six variable groups —
select (x) keyed by patient, inventory (y) and procure (p) keyed by
(bundle, depot, day), deliver (z) keyed by (bundle, patient, depot, day) over
eligible patients, served (a) keyed by (patient, depot, day), and
deliveryCount (n_jt) keyed by (depot, day) — each key set complete and free of
duplicates when the index lists are; the routingCost (vrp_jt) group named by
the contract is not among them. -/
theorem C9_extraction_key_sets (pp : Params) (hP : pp.P.Nodup)
    (hE : pp.E.Nodup) (hS : pp.S.Nodup) (hJ : pp.J.Nodup) :
    spec_contract_groups = returned_variable_groups ++ ["vrp_jt"]
    ∧ (∀ i, i ∈ x_keys pp ↔ i ∈ pp.P) ∧ (x_keys pp).Nodup
    ∧ (∀ s j t, (s, j, t) ∈ y_keys pp
        ↔ s ∈ pp.S ∧ j ∈ pp.J ∧ t < pp.horizon) ∧ (y_keys pp).Nodup
    ∧ (∀ s i j t, (s, i, j, t) ∈ z_keys pp
        ↔ s ∈ pp.S ∧ i ∈ pp.E ∧ j ∈ pp.J ∧ t < pp.horizon)
      ∧ (z_keys pp).Nodup
    ∧ (∀ i j t, (i, j, t) ∈ a_keys pp
        ↔ i ∈ pp.E ∧ j ∈ pp.J ∧ t < pp.horizon) ∧ (a_keys pp).Nodup
    ∧ (∀ j t, (j, t) ∈ n_jt_keys pp ↔ j ∈ pp.J ∧ t < pp.horizon)
      ∧ (n_jt_keys pp).Nodup := by
  have hT : (pp.T).Nodup := List.nodup_range _
  refine ⟨rfl, fun i => Iff.rfl, hP, ?_, hS.product (hJ.product hT),
    ?_, hS.product (hE.product (hJ.product hT)),
    ?_, hE.product (hJ.product hT),
    ?_, hJ.product hT⟩
  · intro s j t
    simp [y_keys, Params.T, List.mem_range]
  · intro s i j t
    simp [z_keys, Params.T, List.mem_range, and_assoc]
  · intro i j t
    simp [a_keys, Params.T, List.mem_range]
  · intro j t
    simp [n_jt_keys, Params.T, List.mem_range]

/-- C9 witness: the key-set characterization evaluated on the concrete
instance pp1. -/
theorem C9_extraction_key_sets_witness :
    spec_contract_groups = returned_variable_groups ++ ["vrp_jt"]
    ∧ (∀ i, i ∈ x_keys pp1 ↔ i ∈ pp1.P) ∧ (x_keys pp1).Nodup
    ∧ (∀ s j t, (s, j, t) ∈ y_keys pp1
        ↔ s ∈ pp1.S ∧ j ∈ pp1.J ∧ t < pp1.horizon) ∧ (y_keys pp1).Nodup
    ∧ (∀ s i j t, (s, i, j, t) ∈ z_keys pp1
        ↔ s ∈ pp1.S ∧ i ∈ pp1.E ∧ j ∈ pp1.J ∧ t < pp1.horizon)
      ∧ (z_keys pp1).Nodup
    ∧ (∀ i j t, (i, j, t) ∈ a_keys pp1
        ↔ i ∈ pp1.E ∧ j ∈ pp1.J ∧ t < pp1.horizon) ∧ (a_keys pp1).Nodup
    ∧ (∀ j t, (j, t) ∈ n_jt_keys pp1 ↔ j ∈ pp1.J ∧ t < pp1.horizon)
      ∧ (n_jt_keys pp1).Nodup :=
  C9_extraction_key_sets pp1 (by simp [pp1, pp0]) (by simp [pp1, pp0])
    (by simp [pp1, pp0]) (by simp [pp1, pp0])

end HaH
